import Mathlib

/-!
Verification of the Channel Multiplexed Socket Client
(`slack_clone/docs/tools/python-client.py`, class `WebSocketClient`).

The Python client is embedded shallowly:

* Python dicts (which preserve insertion order and have unique keys) become
  association lists with order-preserving update (`dictSet`), membership test
  (`containsKey`) and deletion (`dictDel`).
* The mutable client object becomes the structure `WSClient`; every operation
  is a pure function from the pre-state to an `OpResult` holding the raised
  error (if any), the post-state, and the list of frames that went out over
  the transport during the call.
* The transport is a parameter: `websocket.send` either succeeds or raises,
  modelled by a `sendOk : Bool` argument; `websockets.connect` is a function
  from the URI to `Except String Unit` (so the URI actually consulted is
  observable).
* Callback and handler functions are opaque: they are identified by a
  `HandlerId`, and whether a given handler raises when invoked is a parameter
  `raises : HandlerId → Bool`.  An invocation is recorded as a value of the
  `Invocation` type; exceptions that the source catches show up only in the
  logged lines, exactly as in the source.
* The background receive loop becomes `listenLoop`, a recursion over the list
  of items the transport produces (`Incoming`: a frame that parses, a frame
  whose handling raises a non-websocket exception such as a JSON parse error,
  a ConnectionClosed signal, or another websocket-level exception).
-/

namespace SlackCloneSDK

/-- Callback and handler functions are opaque to the model; each is an id. -/
abbrev HandlerId := Nat

/-- Payloads are opaque string-keyed JSON objects. -/
abbrev Payload := List (String × String)

/-- The four-field protocol message (topic, event, payload, ref). -/
structure Envelope where
  topic : String
  event : String
  payload : Payload
  ref : String
deriving DecidableEq

/-- The errors the client raises.  The source raises `SlackCloneError` with
distinct messages; the spec names the conditions `NotConnectedError`
("WebSocket not connected"), `NotJoinedError` ("Not joined to channel: ..."),
and `ConnectionError` ("WebSocket connection failed: ...").  `sendFailed`
stands for an exception raised by the underlying `websocket.send` call and
propagated unwrapped. -/
inductive SDKError where
  | notConnected
  | notJoined (channel_id : String)
  | connectionFailed (message : String)
  | sendFailed
deriving DecidableEq

/-- The value stored in `self.channels[channel_id]`: the topic string and the
per-channel callback dict (event name to handler). -/
structure ChannelInfo where
  topic : String
  callbacks : List (String × HandlerId)
deriving DecidableEq

/-- The mutable state of `WebSocketClient`.  `websocket` is whether
`self.websocket` is non-None, `listen_task` whether `self._listen_task` is
set. -/
structure WSClient where
  url : String
  websocket : Bool
  channels : List (String × ChannelInfo)
  event_handlers : List (String × List HandlerId)
  connected : Bool
  listen_task : Bool
deriving DecidableEq

/-- Result of one client operation: the raised error (none if it returned
normally), the post-state, and the frames sent over the transport. -/
structure OpResult where
  err : Option SDKError
  state : WSClient
  sent : List Envelope
deriving DecidableEq

/-- Python dict lookup `d[k]` / `d.get(k)`: first (unique) matching key. -/
def dictGet {α : Type} (d : List (String × α)) (k : String) : Option α :=
  (d.find? (fun p => p.1 == k)).map (fun p => p.2)

/-- Python `k in d`. -/
def containsKey {α : Type} (d : List (String × α)) (k : String) : Bool :=
  d.any (fun p => p.1 == k)

/-- Python `d[k] = v`: replaces the value in place when the key is present
(dicts keep insertion order), appends a new entry otherwise. -/
def dictSet {α : Type} (d : List (String × α)) (k : String) (v : α) :
    List (String × α) :=
  if containsKey d k then d.map (fun p => if p.1 == k then (k, v) else p)
  else d ++ [(k, v)]

/-- Python `del d[k]`. -/
def dictDel {α : Type} (d : List (String × α)) (k : String) :
    List (String × α) :=
  d.filter (fun p => p.1 != k)

/-- The correlation reference: `f"ref_{int(time.time() * 1000)}"`. -/
def mkRef (now : Nat) : String := "ref_" ++ toString now

/-- The connection URI: `f"{self.url}?token={token}"`. -/
def connectURI (s : WSClient) (token : String) : String :=
  s.url ++ "?token=" ++ token

/-- `WebSocketClient.connect`: open the transport on the URI built from the
token.  On success set the socket, mark connected, start the listen task.
On a transport failure the exception is wrapped in
`SlackCloneError(f"WebSocket connection failed: {e}")` and the assignments
after `websockets.connect` never run. -/
def connect (s : WSClient) (token : String)
    (transport : String → Except String Unit) : OpResult :=
  match transport (connectURI s token) with
  | Except.ok _ =>
      { err := none,
        state := { s with websocket := true, connected := true,
                          listen_task := true },
        sent := [] }
  | Except.error e =>
      { err := some (SDKError.connectionFailed
          ("WebSocket connection failed: " ++ e)),
        state := s, sent := [] }

/-- `WebSocketClient.disconnect`: mark disconnected, cancel and await the
listen task (swallowing its CancelledError), close and drop the socket,
clear all channel subscriptions. -/
def disconnect (s : WSClient) : OpResult :=
  { err := none,
    state := { s with connected := false, listen_task := false,
                      websocket := false, channels := [] },
    sent := [] }

/-- `WebSocketClient.join_channel`: requires socket and connected flag; sends
a phx_join envelope for topic `"channel:<id>"` with a fresh ref, then records
the channel.  If the transport send raises, the record is never stored. -/
def joinChannel (s : WSClient) (now : Nat) (sendOk : Bool)
    (channel_id : String) (callbacks : List (String × HandlerId)) : OpResult :=
  if !s.websocket || !s.connected then
    { err := some SDKError.notConnected, state := s, sent := [] }
  else
    let topic := "channel:" ++ channel_id
    let env : Envelope :=
      { topic := topic, event := "phx_join", payload := [], ref := mkRef now }
    let info : ChannelInfo := { topic := topic, callbacks := callbacks }
    if sendOk then
      { err := none,
        state := { s with channels := dictSet s.channels channel_id info },
        sent := [env] }
    else
      { err := some SDKError.sendFailed, state := s, sent := [] }

/-- `WebSocketClient.leave_channel`: returns at once when the channel is not
in the map.  When joined and the socket is live, sends a phx_leave envelope
with a fresh ref; the `del self.channels[channel_id]` line runs only after
the send returns, so a raising send leaves the record in place. -/
def leaveChannel (s : WSClient) (now : Nat) (sendOk : Bool)
    (channel_id : String) : OpResult :=
  match dictGet s.channels channel_id with
  | none => { err := none, state := s, sent := [] }
  | some info =>
    if s.websocket && s.connected then
      let env : Envelope :=
        { topic := info.topic, event := "phx_leave", payload := [],
          ref := mkRef now }
      if sendOk then
        { err := none,
          state := { s with channels := dictDel s.channels channel_id },
          sent := [env] }
      else
        { err := some SDKError.sendFailed, state := s, sent := [] }
    else
      { err := none,
        state := { s with channels := dictDel s.channels channel_id },
        sent := [] }

/-- `WebSocketClient._send_channel_event`: checks the connection first
("WebSocket not connected"), then membership in the channel map
("Not joined to channel: ..."), then sends one envelope on the recorded
topic with a fresh ref. -/
def sendChannelEvent (s : WSClient) (now : Nat) (sendOk : Bool)
    (channel_id : String) (event : String) (payload : Payload) : OpResult :=
  if !s.websocket || !s.connected then
    { err := some SDKError.notConnected, state := s, sent := [] }
  else
    match dictGet s.channels channel_id with
    | none =>
        { err := some (SDKError.notJoined channel_id), state := s, sent := [] }
    | some info =>
        let env : Envelope :=
          { topic := info.topic, event := event, payload := payload,
            ref := mkRef now }
        if sendOk then { err := none, state := s, sent := [env] }
        else { err := some SDKError.sendFailed, state := s, sent := [] }

/-- `send_message`: temp_id defaults to the millisecond timestamp. -/
def sendMessage (s : WSClient) (now : Nat) (sendOk : Bool)
    (channel_id content : String) (temp_id : Option String) : OpResult :=
  sendChannelEvent s now sendOk channel_id "send_message"
    [("content", content), ("temp_id", temp_id.getD (toString now))]

/-- `edit_message`. -/
def editMessage (s : WSClient) (now : Nat) (sendOk : Bool)
    (channel_id message_id content : String) : OpResult :=
  sendChannelEvent s now sendOk channel_id "edit_message"
    [("message_id", message_id), ("content", content)]

/-- `delete_message`. -/
def deleteMessage (s : WSClient) (now : Nat) (sendOk : Bool)
    (channel_id message_id : String) : OpResult :=
  sendChannelEvent s now sendOk channel_id "delete_message"
    [("message_id", message_id)]

/-- `start_typing`. -/
def startTyping (s : WSClient) (now : Nat) (sendOk : Bool)
    (channel_id : String) : OpResult :=
  sendChannelEvent s now sendOk channel_id "typing_start" []

/-- `stop_typing`. -/
def stopTyping (s : WSClient) (now : Nat) (sendOk : Bool)
    (channel_id : String) : OpResult :=
  sendChannelEvent s now sendOk channel_id "typing_stop" []

/-- `add_reaction`. -/
def addReaction (s : WSClient) (now : Nat) (sendOk : Bool)
    (channel_id message_id emoji : String) : OpResult :=
  sendChannelEvent s now sendOk channel_id "add_reaction"
    [("message_id", message_id), ("emoji", emoji)]

/-- `remove_reaction`. -/
def removeReaction (s : WSClient) (now : Nat) (sendOk : Bool)
    (channel_id reaction_id : String) : OpResult :=
  sendChannelEvent s now sendOk channel_id "remove_reaction"
    [("reaction_id", reaction_id)]

/-- `mark_as_read`. -/
def markAsRead (s : WSClient) (now : Nat) (sendOk : Bool)
    (channel_id message_id : String) : OpResult :=
  sendChannelEvent s now sendOk channel_id "mark_read"
    [("message_id", message_id)]

/-- `load_older_messages`. -/
def loadOlderMessages (s : WSClient) (now : Nat) (sendOk : Bool)
    (channel_id before_id : String) : OpResult :=
  sendChannelEvent s now sendOk channel_id "load_older_messages"
    [("before_id", before_id)]

/-- One call to one of the nine channel-scoped senders, with its arguments. -/
inductive SenderCall where
  | sendMsg (channel_id content : String) (temp_id : Option String)
  | editMsg (channel_id message_id content : String)
  | deleteMsg (channel_id message_id : String)
  | typingStart (channel_id : String)
  | typingStop (channel_id : String)
  | addReact (channel_id message_id emoji : String)
  | removeReact (channel_id reaction_id : String)
  | markRead (channel_id message_id : String)
  | loadOlder (channel_id before_id : String)
deriving DecidableEq

/-- The channel id a sender call targets. -/
def SenderCall.channel_id : SenderCall → String
  | SenderCall.sendMsg cid _ _ => cid
  | SenderCall.editMsg cid _ _ => cid
  | SenderCall.deleteMsg cid _ => cid
  | SenderCall.typingStart cid => cid
  | SenderCall.typingStop cid => cid
  | SenderCall.addReact cid _ _ => cid
  | SenderCall.removeReact cid _ => cid
  | SenderCall.markRead cid _ => cid
  | SenderCall.loadOlder cid _ => cid

/-- Dispatch a sender call to the corresponding client method. -/
def applySender (s : WSClient) (now : Nat) (sendOk : Bool) :
    SenderCall → OpResult
  | SenderCall.sendMsg cid content temp_id =>
      sendMessage s now sendOk cid content temp_id
  | SenderCall.editMsg cid mid content => editMessage s now sendOk cid mid content
  | SenderCall.deleteMsg cid mid => deleteMessage s now sendOk cid mid
  | SenderCall.typingStart cid => startTyping s now sendOk cid
  | SenderCall.typingStop cid => stopTyping s now sendOk cid
  | SenderCall.addReact cid mid emoji => addReaction s now sendOk cid mid emoji
  | SenderCall.removeReact cid rid => removeReaction s now sendOk cid rid
  | SenderCall.markRead cid mid => markAsRead s now sendOk cid mid
  | SenderCall.loadOlder cid bid => loadOlderMessages s now sendOk cid bid

/-- A parsed inbound frame as seen by `_handle_message`:
`message.get("topic", "")`, `message.get("event", "")`,
`message.get("payload", {})`. -/
structure Inbound where
  topic : String
  event : String
  payload : Payload
deriving DecidableEq

/-- One callback or handler call made while dispatching a frame: either the
per-channel callback registered for the event on the matched channel, or one
global handler. -/
inductive Invocation where
  | channel (channel_id : String) (event : String) (h : HandlerId)
      (payload : Payload)
  | global (event : String) (h : HandlerId) (payload : Payload)
deriving DecidableEq

/-- Whether an invocation is of a per-channel callback. -/
def Invocation.isChannel : Invocation → Bool
  | Invocation.channel _ _ _ _ => true
  | Invocation.global _ _ _ => false

/-- The linear scan in `_handle_message`: the first channel whose recorded
topic equals the frame topic, if any. -/
def findChannelByTopic (channels : List (String × ChannelInfo))
    (topic : String) : Option String :=
  (channels.find? (fun p => p.2.topic == topic)).map (fun p => p.1)

/-- What one `_handle_message` call did: the calls it made, in order; the
error lines it logged; and the exception it let escape (always none, because
every callback and handler call sits in its own try/except). -/
structure HandleResult where
  invocations : List Invocation
  log : List String
  err : Option SDKError
deriving DecidableEq

/-- One step of the `for handler in self.event_handlers[event]` loop: the
handler is invoked; if it raises, the exception is caught and logged and the
loop continues with the next handler. -/
def globalStep (raises : HandlerId → Bool) (event : String)
    (payload : Payload) (acc : List Invocation × List String)
    (h : HandlerId) : List Invocation × List String :=
  if raises h then
    (acc.1 ++ [Invocation.global event h payload],
     acc.2 ++ ["Error in global handler for " ++ event])
  else
    (acc.1 ++ [Invocation.global event h payload], acc.2)

/-- `WebSocketClient._handle_message`: find the channel whose topic matches
(linear scan); if found and its callback dict has the event, invoke that
callback inside try/except; then, independently, invoke every global handler
registered for the event, each inside try/except. -/
def handleMessage (raises : HandlerId → Bool) (s : WSClient)
    (msg : Inbound) : HandleResult :=
  let chan : List Invocation × List String :=
    match findChannelByTopic s.channels msg.topic with
    | some cid =>
        match dictGet s.channels cid with
        | some info =>
            match dictGet info.callbacks msg.event with
            | some h =>
                if raises h then
                  ([Invocation.channel cid msg.event h msg.payload],
                   ["Error in callback for " ++ msg.event])
                else
                  ([Invocation.channel cid msg.event h msg.payload], [])
            | none => ([], [])
        | none => ([], [])
    | none => ([], [])
  let glob : List Invocation × List String :=
    match dictGet s.event_handlers msg.event with
    | some hs => hs.foldl (globalStep raises msg.event msg.payload) ([], [])
    | none => ([], [])
  { invocations := chan.1 ++ glob.1, log := chan.2 ++ glob.2, err := none }

/-- `WebSocketClient.on` (the name `on` is taken by notation in Lean):
create the empty list for a new event name, then append the handler to that
event's list. -/
def onEvent (s : WSClient) (event : String) (handler : HandlerId) : WSClient :=
  let d :=
    if containsKey s.event_handlers event then s.event_handlers
    else s.event_handlers ++ [(event, [])]
  { s with event_handlers :=
      d.map (fun p => if p.1 == event then (p.1, p.2 ++ [handler]) else p) }

/-- One item produced by `await self.websocket.recv()` inside the loop:
a frame (`some` if its handling proceeds normally, `none` if `json.loads`
or the dispatch raises an ordinary exception such as a parse error),
the ConnectionClosed signal, or another websocket-level exception. -/
inductive Incoming where
  | frame (parsed : Option Inbound)
  | closed
  | wsError
deriving DecidableEq

/-- What a run of the receive loop did: the final client state, the calls
made, and the logged lines. -/
structure LoopResult where
  state : WSClient
  invocations : List Invocation
  log : List String
deriving DecidableEq

/-- `WebSocketClient._listen_for_messages`: while connected and the socket is
set, receive one item.  A frame that raises an ordinary exception is logged
and the loop continues; a well-formed frame is dispatched and the loop
continues; ConnectionClosed or a websocket-level exception clears the
connected flag and breaks out of the loop. -/
def listenLoop (raises : HandlerId → Bool) (s : WSClient) :
    List Incoming → LoopResult
  | [] => { state := s, invocations := [], log := [] }
  | item :: rest =>
    if s.connected && s.websocket then
      match item with
      | Incoming.frame none =>
          let r := listenLoop raises s rest
          { r with log := "Error handling message" :: r.log }
      | Incoming.frame (some msg) =>
          let h := handleMessage raises s msg
          let r := listenLoop raises s rest
          { state := r.state, invocations := h.invocations ++ r.invocations,
            log := h.log ++ r.log }
      | Incoming.closed =>
          { state := { s with connected := false }, invocations := [],
            log := ["WebSocket connection closed"] }
      | Incoming.wsError =>
          { state := { s with connected := false }, invocations := [],
            log := ["WebSocket error"] }
    else { state := s, invocations := [], log := [] }

/-- One call in a join/leave sequence. -/
inductive ChanOp where
  | join (channel_id : String)
  | leave (channel_id : String)
deriving DecidableEq

/-- Run a sequence of join/leave calls (with the transport sends succeeding
and empty callback dicts; the timestamp is irrelevant to the map). -/
def runOps (s : WSClient) : List ChanOp → WSClient
  | [] => s
  | ChanOp.join cid :: rest => runOps (joinChannel s 0 true cid []).state rest
  | ChanOp.leave cid :: rest => runOps (leaveChannel s 0 true cid).state rest

/-- Boolean membership in a list of ids. -/
def memStr (k : String) : List String → Bool
  | [] => false
  | c :: rest => (c == k) || memStr k rest

/-- The ids joined and not subsequently left, starting from `acc`, in first-
join order: the reference set the subscription map keys are compared to. -/
def currentlyJoined : List ChanOp → List String → List String
  | [], acc => acc
  | ChanOp.join cid :: rest, acc =>
      currentlyJoined rest (if memStr cid acc then acc else acc ++ [cid])
  | ChanOp.leave cid :: rest, acc =>
      currentlyJoined rest (acc.filter (fun c => c != cid))

/-! Test fixtures: a freshly constructed client (the `__init__` state) and a
connected client joined to channel c1 with one per-channel callback and two
global handlers for typing_start. -/

/-- The state right after `WebSocketClient()`. -/
def c0 : WSClient :=
  { url := "ws://localhost:4000/socket/websocket", websocket := false,
    channels := [], event_handlers := [], connected := false,
    listen_task := false }

/-- A connected client joined to c1 (callback 7 for new_message) with global
handlers 1 and 2 registered for typing_start. -/
def cJ : WSClient :=
  { url := "ws://localhost:4000/socket/websocket", websocket := true,
    channels :=
      [("c1", { topic := "channel:c1", callbacks := [("new_message", 7)] })],
    event_handlers := [("typing_start", [1, 2])], connected := true,
    listen_task := true }

/-- A connected client with no subscriptions yet. -/
def cEmpty : WSClient :=
  { url := "ws://localhost:4000/socket/websocket", websocket := true,
    channels := [], event_handlers := [], connected := true,
    listen_task := true }

/-! Helper lemmas about the embedded operations. -/

/-- The guard of `_send_channel_event` fails exactly as in the source. -/
lemma sendChannelEvent_notConnected (s : WSClient) (now : Nat) (ok : Bool)
    (cid ev : String) (p : Payload) (h : (!s.websocket || !s.connected) = true) :
    sendChannelEvent s now ok cid ev p =
      { err := some SDKError.notConnected, state := s, sent := [] } := by
  simp [sendChannelEvent, h]

/-- With a live connection, an unjoined channel id fails the membership
check of `_send_channel_event`. -/
lemma sendChannelEvent_notJoined (s : WSClient) (now : Nat) (ok : Bool)
    (cid ev : String) (p : Payload) (hcon : (s.websocket && s.connected) = true)
    (hget : dictGet s.channels cid = none) :
    sendChannelEvent s now ok cid ev p =
      { err := some (SDKError.notJoined cid), state := s, sent := [] } := by
  have hw : s.websocket = true := by
    cases hb : s.websocket <;> simp [hb] at hcon ⊢
  have hc : s.connected = true := by
    cases hb : s.connected <;> simp [hb] at hcon ⊢
  simp [sendChannelEvent, hw, hc, hget]

/-- Every sender call delegates to `_send_channel_event` on its channel id. -/
lemma applySender_eq_sendChannelEvent (s : WSClient) (now : Nat) (ok : Bool)
    (call : SenderCall) :
    ∃ ev p, applySender s now ok call =
      sendChannelEvent s now ok call.channel_id ev p := by
  cases call <;>
    simp [applySender, sendMessage, editMessage, deleteMessage, startTyping,
      stopTyping, addReaction, removeReaction, markAsRead, loadOlderMessages,
      SenderCall.channel_id]

/-- C4: disconnect is idempotent.  For every client state, two consecutive
calls raise no error and after each call the connected flag is false and the
subscription map is empty; moreover the second call leaves the state of the
first untouched. -/
theorem disconnect_idempotent (s : WSClient) :
    (disconnect s).err = none ∧
    (disconnect (disconnect s).state).err = none ∧
    (disconnect s).state.connected = false ∧
    (disconnect s).state.channels = [] ∧
    (disconnect (disconnect s).state).state.connected = false ∧
    (disconnect (disconnect s).state).state.channels = [] ∧
    disconnect (disconnect s).state = disconnect s := by
  simp [disconnect]

/-- C1 (counterexample): the claim says a sender called on an unjoined topic
fails with NotJoinedError for every client state; but on a client that is
both disconnected and unjoined, `_send_channel_event` checks the connection
first and raises NotConnectedError, so the claimed error does not occur. -/
theorem sender_notJoined_counterexample :
    containsKey c0.channels "c1" = false ∧
    (applySender c0 0 true (SenderCall.sendMsg "c1" "hi" none)).err =
      some SDKError.notConnected ∧
    (applySender c0 0 true (SenderCall.sendMsg "c1" "hi" none)).err ≠
      some (SDKError.notJoined "c1") := by
  refine ⟨by decide, by decide, by decide⟩

/-- C1 (amended): for every channel-scoped sender and client state, if the
connection is not active the call fails with NotConnectedError; otherwise,
if the topic is not joined, it fails with NotJoinedError; in either failure
case the state is unchanged and no frame is sent over the transport. -/
theorem sender_guard_order (s : WSClient) (now : Nat) (ok : Bool)
    (call : SenderCall) :
    ((!s.websocket || !s.connected) = true →
      applySender s now ok call =
        { err := some SDKError.notConnected, state := s, sent := [] })
  ∧ ((s.websocket && s.connected) = true →
      dictGet s.channels call.channel_id = none →
      applySender s now ok call =
        { err := some (SDKError.notJoined call.channel_id), state := s,
          sent := [] }) := by
  obtain ⟨ev, p, hdel⟩ := applySender_eq_sendChannelEvent s now ok call
  constructor
  · intro h
    rw [hdel]
    exact sendChannelEvent_notConnected s now ok call.channel_id ev p h
  · intro hcon hget
    rw [hdel]
    exact sendChannelEvent_notJoined s now ok call.channel_id ev p hcon hget

/-- C1 (witness): the amended theorem at concrete inputs: a disconnected
client fails with NotConnectedError and sends nothing; a connected client
with no subscriptions fails with NotJoinedError and sends nothing. -/
theorem sender_guard_order_witness :
    applySender c0 0 true (SenderCall.typingStart "c1") =
      { err := some SDKError.notConnected, state := c0, sent := [] } ∧
    applySender cEmpty 0 true (SenderCall.typingStart "c1") =
      { err := some (SDKError.notJoined "c1"), state := cEmpty, sent := [] } :=
  ⟨(sender_guard_order c0 0 true (SenderCall.typingStart "c1")).1 (by decide),
   (sender_guard_order cEmpty 0 true (SenderCall.typingStart "c1")).2
     (by decide) (by decide)⟩

/-- C3 (counterexample): the claim says the subscription record is removed in
every joined case even when the transport send raises; but in the source the
`del self.channels[channel_id]` line follows the send with no try/except, so
on a joined connected client whose send raises, the record survives. -/
theorem leave_send_failure_counterexample :
    containsKey cJ.channels "c1" = true ∧
    (leaveChannel cJ 5 false "c1").err = some SDKError.sendFailed ∧
    (leaveChannel cJ 5 false "c1").state = cJ ∧
    containsKey (leaveChannel cJ 5 false "c1").state.channels "c1" = true := by
  refine ⟨by decide, by decide, by decide, by decide⟩

/-- C3 (amended): leave is a no-op when the topic is not joined.  When joined
and the connection is active it sends a leave envelope on the recorded topic
with a fresh correlation reference; the subscription record is removed when
the send succeeds, and also when the client is not connected (no frame sent);
but when the transport send raises, the exception propagates and the record
is retained. -/
theorem leave_channel_behavior (s : WSClient) (now : Nat) (ok : Bool)
    (cid : String) (info : ChannelInfo) :
    (dictGet s.channels cid = none →
      leaveChannel s now ok cid = { err := none, state := s, sent := [] })
  ∧ (dictGet s.channels cid = some info →
      (s.websocket && s.connected) = true → ok = true →
      leaveChannel s now ok cid =
        { err := none,
          state := { s with channels := dictDel s.channels cid },
          sent := [{ topic := info.topic, event := "phx_leave", payload := [],
                     ref := mkRef now }] })
  ∧ (dictGet s.channels cid = some info →
      (s.websocket && s.connected) = false →
      leaveChannel s now ok cid =
        { err := none,
          state := { s with channels := dictDel s.channels cid },
          sent := [] })
  ∧ (dictGet s.channels cid = some info →
      (s.websocket && s.connected) = true → ok = false →
      leaveChannel s now ok cid =
        { err := some SDKError.sendFailed, state := s, sent := [] }) := by
  refine ⟨?_, ?_, ?_, ?_⟩
  · intro h; simp [leaveChannel, h]
  · intro h hcon hok; simp [leaveChannel, h, hcon, hok]
  · intro h hcon; simp [leaveChannel, h, hcon]
  · intro h hcon hok; simp [leaveChannel, h, hcon, hok]

/-- C3 (witness): the amended theorem at concrete inputs: a successful leave
on the joined client removes the record and sends the phx_leave envelope,
and a failing send leaves the state untouched with the error raised. -/
theorem leave_channel_behavior_witness :
    leaveChannel cJ 5 true "c1" =
      { err := none, state := { cJ with channels := dictDel cJ.channels "c1" },
        sent := [{ topic := "channel:c1", event := "phx_leave", payload := [],
                   ref := mkRef 5 }] } ∧
    leaveChannel cJ 5 false "c1" =
      { err := some SDKError.sendFailed, state := cJ, sent := [] } :=
  ⟨(leave_channel_behavior cJ 5 true "c1"
      { topic := "channel:c1", callbacks := [("new_message", 7)] }).2.1
      (by decide) (by decide) rfl,
   (leave_channel_behavior cJ 5 false "c1"
      { topic := "channel:c1", callbacks := [("new_message", 7)] }).2.2.2
      (by decide) (by decide) rfl⟩

/-- C8: connect consults the transport exactly at the base URI with the
token appended as a query parameter (its result depends on the transport
only through that URI); when the transport fails, the call raises
ConnectionError wrapping the underlying failure, the state is unchanged, and
on a fresh client the connected flag stays false and no listen task is
started. -/
theorem connect_uri_and_failure (s : WSClient) (token : String)
    (transport t1 t2 : String → Except String Unit) (e : String) :
    (t1 (connectURI s token) = t2 (connectURI s token) →
      connect s token t1 = connect s token t2)
  ∧ (transport (connectURI s token) = Except.error e →
      connect s token transport =
        { err := some (SDKError.connectionFailed
            ("WebSocket connection failed: " ++ e)),
          state := s, sent := [] })
  ∧ (transport (connectURI s token) = Except.error e →
      s.connected = false → s.listen_task = false →
      (connect s token transport).state.connected = false ∧
      (connect s token transport).state.listen_task = false) := by
  refine ⟨?_, ?_, ?_⟩
  · intro h; simp [connect, h]
  · intro h; simp [connect, h]
  · intro h hc hl; simp [connect, h, hc, hl]

/-- A transport that accepts only the URI the fresh client builds. -/
def tOkAt : String → Except String Unit :=
  fun u => if u == connectURI c0 "tok" then Except.ok () else Except.error "o"

/-- A transport that accepts every URI. -/
def tOk : String → Except String Unit := fun _ => Except.ok ()

/-- A transport that refuses every URI. -/
def tFail : String → Except String Unit := fun _ => Except.error "refused"

/-- C8 (witness): the theorem at concrete inputs: two transports agreeing at
the token URI give the same result, and a refusing transport produces the
wrapped ConnectionError with the fresh client unchanged. -/
theorem connect_uri_and_failure_witness :
    connect c0 "tok" tOkAt = connect c0 "tok" tOk ∧
    connect c0 "tok" tFail =
      { err := some (SDKError.connectionFailed
          "WebSocket connection failed: refused"),
        state := c0, sent := [] } ∧
    ((connect c0 "tok" tFail).state.connected = false ∧
     (connect c0 "tok" tFail).state.listen_task = false) :=
  ⟨(connect_uri_and_failure c0 "tok" tFail tOkAt tOk "refused").1 rfl,
   (connect_uri_and_failure c0 "tok" tFail tOkAt tOk "refused").2.1 rfl,
   (connect_uri_and_failure c0 "tok" tFail tOkAt tOk "refused").2.2 rfl
     rfl rfl⟩

/-! Helper lemmas about `_handle_message` and the receive loop. -/

/-- One global-handler step appends exactly one invocation, whether or not
the handler raises (the exception is caught). -/
lemma globalStep_fst (raises : HandlerId → Bool) (ev : String) (p : Payload)
    (acc : List Invocation × List String) (h : HandlerId) :
    (globalStep raises ev p acc h).1 =
      acc.1 ++ [Invocation.global ev h p] := by
  cases hr : raises h <;> simp [globalStep, hr]

/-- The global-handler loop invokes the registered handlers in list order,
independently of which ones raise. -/
lemma globFold_fst (raises : HandlerId → Bool) (ev : String) (p : Payload) :
    ∀ (hs : List HandlerId) (acc : List Invocation × List String),
      (hs.foldl (globalStep raises ev p) acc).1 =
        acc.1 ++ hs.map (fun h => Invocation.global ev h p) := by
  intro hs
  induction hs with
  | nil => intro acc; simp
  | cons h t ih =>
      intro acc
      rw [List.foldl_cons, ih]
      rw [globalStep_fst]
      simp

/-- Dispatching a frame never lets an exception escape: every callback and
handler call sits in its own try/except. -/
lemma handleMessage_err_none (raises : HandlerId → Bool) (s : WSClient)
    (msg : Inbound) : (handleMessage raises s msg).err = none := rfl

/-- The per-channel part of the dispatch is one callback invocation or none,
independent of whether the callback raises. -/
lemma handleMessage_invocations (raises : HandlerId → Bool) (s : WSClient)
    (msg : Inbound) :
    (handleMessage raises s msg).invocations =
      (match findChannelByTopic s.channels msg.topic with
       | some cid =>
           match dictGet s.channels cid with
           | some info =>
               match dictGet info.callbacks msg.event with
               | some h => [Invocation.channel cid msg.event h msg.payload]
               | none => []
           | none => []
       | none => [])
      ++ ((dictGet s.event_handlers msg.event).getD []).map
           (fun h => Invocation.global msg.event h msg.payload) := by
  simp only [handleMessage]
  congr 1
  · cases hf : findChannelByTopic s.channels msg.topic with
    | none => simp
    | some cid =>
        cases hg : dictGet s.channels cid with
        | none => simp [hg]
        | some info =>
            cases hcb : dictGet info.callbacks msg.event with
            | none => simp [hg, hcb]
            | some h => cases hr : raises h <;> simp [hg, hcb, hr]
  · cases hg : dictGet s.event_handlers msg.event with
    | none => simp
    | some hs => simp [globFold_fst]

/-- No global invocation is a per-channel callback invocation. -/
lemma filter_isChannel_map_global (ev : String) (p : Payload) :
    ∀ hs : List HandlerId,
      ((hs.map (fun h => Invocation.global ev h p)).filter
        Invocation.isChannel) = [] := by
  intro hs
  induction hs with
  | nil => rfl
  | cons h t ih => simp [Invocation.isChannel, ih]

/-- Every global invocation survives the not-per-channel filter. -/
lemma filter_not_isChannel_map_global (ev : String) (p : Payload) :
    ∀ hs : List HandlerId,
      ((hs.map (fun h => Invocation.global ev h p)).filter
        (fun i => !i.isChannel)) =
        hs.map (fun h => Invocation.global ev h p) := by
  intro hs
  induction hs with
  | nil => rfl
  | cons h t ih => simp [Invocation.isChannel, ih]

/-- C2: an inbound frame whose topic matches no joined subscription is
dropped by `_handle_message`: no per-channel callback is invoked for it (the
registries of the spec reserve the word callback for the per-channel ones;
global handlers are the subject of a separate claim) and no error is raised,
whatever the handlers would do when invoked. -/
theorem unmatched_topic_no_channel_callback (raises : HandlerId → Bool)
    (s : WSClient) (msg : Inbound)
    (h : findChannelByTopic s.channels msg.topic = none) :
    ((handleMessage raises s msg).invocations.filter
        Invocation.isChannel) = [] ∧
    (handleMessage raises s msg).err = none := by
  constructor
  · rw [handleMessage_invocations, h]
    simp [filter_isChannel_map_global]
  · exact handleMessage_err_none raises s msg

/-- C2 (witness): the theorem at a concrete frame whose topic channel:zz is
joined by nobody, against the connected fixture client, with every handler
raising. -/
theorem unmatched_topic_no_channel_callback_witness :
    ((handleMessage (fun _ => true) cJ
        { topic := "channel:zz", event := "typing_start",
          payload := [] }).invocations.filter Invocation.isChannel) = [] ∧
    (handleMessage (fun _ => true) cJ
        { topic := "channel:zz", event := "typing_start",
          payload := [] }).err = none :=
  unmatched_topic_no_channel_callback (fun _ => true) cJ
    { topic := "channel:zz", event := "typing_start", payload := [] }
    (by decide)

/-- C9: for a frame whose topic matches no joined subscription, the dispatch
still invokes exactly the global handlers registered for the event name, in
order; only the per-channel callback dispatch is skipped. -/
theorem unmatched_topic_globals_still_run (raises : HandlerId → Bool)
    (s : WSClient) (msg : Inbound)
    (h : findChannelByTopic s.channels msg.topic = none) :
    (handleMessage raises s msg).invocations =
      ((dictGet s.event_handlers msg.event).getD []).map
        (fun hid => Invocation.global msg.event hid msg.payload) := by
  rw [handleMessage_invocations, h]
  simp

/-- C9 (witness): the theorem at a concrete unmatched frame: both registered
typing_start handlers run, in order, with the frame payload. -/
theorem unmatched_topic_globals_still_run_witness :
    (handleMessage (fun _ => true) cJ
        { topic := "channel:zz", event := "typing_start",
          payload := [("user_id", "u1")] }).invocations =
      [Invocation.global "typing_start" 1 [("user_id", "u1")],
       Invocation.global "typing_start" 2 [("user_id", "u1")]] :=
  unmatched_topic_globals_still_run (fun _ => true) cJ
    { topic := "channel:zz", event := "typing_start",
      payload := [("user_id", "u1")] } (by decide)

/-- Unfolding membership over a cons cell. -/
lemma containsKey_cons {α : Type} (p : String × α) (d : List (String × α))
    (k : String) : containsKey (p :: d) k = ((p.1 == k) || containsKey d k) := by
  simp [containsKey]

/-- Lookup hits a matching head. -/
lemma dictGet_cons_pos {α : Type} (p : String × α) (d : List (String × α))
    (k : String) (h : (p.1 == k) = true) : dictGet (p :: d) k = some p.2 := by
  simp only [dictGet]
  rw [show List.find? (fun q => q.1 == k) (p :: d) = some p from
    List.find?_cons_of_pos _ h]
  rfl

/-- Lookup skips a non-matching head. -/
lemma dictGet_cons_neg {α : Type} {p : String × α} {d : List (String × α)}
    {k : String} (h : (p.1 == k) = false) : dictGet (p :: d) k = dictGet d k := by
  simp only [dictGet]
  rw [show List.find? (fun q => q.1 == k) (p :: d) =
      List.find? (fun q => q.1 == k) d from
    List.find?_cons_of_neg _ (by simp [h])]

/-- The registry update of `on`, as a list computation: the handler lands at
the end of the list registered for the event, creating the entry if new. -/
lemma dictGet_onEvent_core (ev : String) (hid : HandlerId) :
    ∀ d : List (String × List HandlerId),
      dictGet ((if containsKey d ev then d else d ++ [(ev, [])]).map
          (fun p => if p.1 == ev then (p.1, p.2 ++ [hid]) else p)) ev
        = some ((dictGet d ev).getD [] ++ [hid])
  | [] => by
      simp [containsKey, dictGet]
  | p :: t => by
      cases hpe : (p.1 == ev) with
      | true =>
          have hck : containsKey (p :: t) ev = true := by
            simp [containsKey_cons, hpe]
          rw [hck, if_pos rfl, List.map_cons, hpe, if_pos rfl,
            dictGet_cons_pos p t ev hpe]
          rw [dictGet_cons_pos (p.1, p.2 ++ [hid]) _ ev (by simpa using hpe)]
          rfl
      | false =>
          have hck' : containsKey (p :: t) ev = containsKey t ev := by
            simp [containsKey_cons, hpe]
          have ih := dictGet_onEvent_core ev hid t
          rw [hck', dictGet_cons_neg hpe]
          cases hck : containsKey t ev with
          | true =>
              rw [hck] at ih
              rw [if_pos rfl] at ih
              rw [if_pos rfl, List.map_cons, hpe, if_neg (by simp),
                dictGet_cons_neg hpe, ih]
          | false =>
              rw [hck] at ih
              rw [if_neg (by simp)] at ih
              rw [if_neg (by simp), List.cons_append, List.map_cons, hpe,
                if_neg (by simp), dictGet_cons_neg hpe, ih]

/-- C7: `on` permits several handlers per event name by appending to the
ordered list for that name, and every inbound frame carrying the name
invokes each registered global handler exactly once, in registration order,
regardless of the frame topic (the global invocations of any frame are
literally the registered list, in order). -/
theorem on_registration_and_dispatch_order (s : WSClient) (ev : String)
    (hid : HandlerId) (raises : HandlerId → Bool) (msg : Inbound) :
    dictGet (onEvent s ev hid).event_handlers ev =
      some (((dictGet s.event_handlers ev).getD []) ++ [hid])
  ∧ ((handleMessage raises s msg).invocations.filter
        (fun i => !i.isChannel)) =
      ((dictGet s.event_handlers msg.event).getD []).map
        (fun h => Invocation.global msg.event h msg.payload) := by
  constructor
  · show dictGet
      ((if containsKey s.event_handlers ev then s.event_handlers
        else s.event_handlers ++ [(ev, [])]).map
        (fun p => if p.1 == ev then (p.1, p.2 ++ [hid]) else p)) ev = _
    exact dictGet_onEvent_core ev hid s.event_handlers
  · rw [handleMessage_invocations]
    rw [List.filter_append, filter_not_isChannel_map_global]
    cases hf : findChannelByTopic s.channels msg.topic with
    | none => simp
    | some cid =>
        cases hg : dictGet s.channels cid with
        | none => simp [hg]
        | some info =>
            cases hcb : dictGet info.callbacks msg.event with
            | none => simp [hg, hcb]
            | some h => simp [hg, hcb, Invocation.isChannel]

/-- Whether an incoming item is a data frame (as opposed to the transport
signalling closure or a websocket-level error). -/
def Incoming.isFrame : Incoming → Bool
  | Incoming.frame _ => true
  | Incoming.closed => false
  | Incoming.wsError => false

/-- The receive loop visits the same states and makes the same invocations
whatever the handlers do when invoked; only the logged lines differ. -/
lemma listenLoop_raises_indep (raises : HandlerId → Bool) (s : WSClient) :
    ∀ input : List Incoming,
      (listenLoop raises s input).state =
        (listenLoop (fun _ => false) s input).state ∧
      (listenLoop raises s input).invocations =
        (listenLoop (fun _ => false) s input).invocations := by
  intro input
  induction input with
  | nil => exact ⟨rfl, rfl⟩
  | cons item rest ih =>
      cases hcw : s.connected && s.websocket with
      | false => simp [listenLoop, hcw]
      | true =>
          cases item with
          | closed => simp [listenLoop, hcw]
          | wsError => simp [listenLoop, hcw]
          | frame parsed =>
              cases parsed with
              | none => simp [listenLoop, hcw, ih.1, ih.2]
              | some msg =>
                  have hm := handleMessage_invocations raises s msg
                  have hm0 := handleMessage_invocations (fun _ => false) s msg
                  constructor
                  · simp [listenLoop, hcw, ih.1]
                  · simp [listenLoop, hcw, ih.2, hm, hm0]

/-- While every received item is a data frame, the loop never changes the
client state (in particular the connected flag stays up). -/
lemma listenLoop_allFrames_state (raises : HandlerId → Bool) (s : WSClient)
    (hc : s.connected = true) (hw : s.websocket = true) :
    ∀ input : List Incoming, input.all Incoming.isFrame = true →
      (listenLoop raises s input).state = s := by
  intro input
  induction input with
  | nil => intro _; rfl
  | cons item rest ih =>
      intro hall
      rw [List.all_cons] at hall
      cases item with
      | closed => simp [Incoming.isFrame] at hall
      | wsError => simp [Incoming.isFrame] at hall
      | frame parsed =>
          have hrest : rest.all Incoming.isFrame = true := by
            simpa [Incoming.isFrame] using hall
          cases parsed with
          | none => simp [listenLoop, hc, hw, ih hrest]
          | some msg => simp [listenLoop, hc, hw, ih hrest]

/-- C5: an exception raised by an invoked handler (per-channel callback or
global handler) is caught: dispatching a frame never raises, the invocations
made (including all remaining handlers for the event) are those of a run in
which no handler raises, and the receive loop goes through the same states
and the same invocations, so subsequent frames are processed and the
connection is not torn down. -/
theorem handler_exception_isolated (raises : HandlerId → Bool) (s : WSClient)
    (msg : Inbound) (input : List Incoming) :
    (handleMessage raises s msg).err = none
  ∧ (handleMessage raises s msg).invocations =
      (handleMessage (fun _ => false) s msg).invocations
  ∧ (listenLoop raises s input).invocations =
      (listenLoop (fun _ => false) s input).invocations
  ∧ (listenLoop raises s input).state =
      (listenLoop (fun _ => false) s input).state := by
  refine ⟨handleMessage_err_none raises s msg, ?_, ?_, ?_⟩
  · rw [handleMessage_invocations raises s msg,
      handleMessage_invocations (fun _ => false) s msg]
  · exact (listenLoop_raises_indep raises s input).2
  · exact (listenLoop_raises_indep raises s input).1

/-- C10: on a connected client, a frame that is not valid JSON (or whose
handling raises an ordinary exception) is logged and skipped and the loop
continues with the remaining input; while every item is a data frame the
state (hence the connected flag) is unchanged; the loop exits, setting the
connected flag to false, exactly on a transport-closed signal or a
websocket-level exception, leaving the rest of the input unread. -/
theorem listen_loop_error_exit_behavior (raises : HandlerId → Bool)
    (s : WSClient) (rest input : List Incoming)
    (hc : s.connected = true) (hw : s.websocket = true) :
    listenLoop raises s (Incoming.frame none :: rest) =
      { state := (listenLoop raises s rest).state,
        invocations := (listenLoop raises s rest).invocations,
        log := "Error handling message" :: (listenLoop raises s rest).log }
  ∧ listenLoop raises s (Incoming.closed :: rest) =
      { state := { s with connected := false }, invocations := [],
        log := ["WebSocket connection closed"] }
  ∧ listenLoop raises s (Incoming.wsError :: rest) =
      { state := { s with connected := false }, invocations := [],
        log := ["WebSocket error"] }
  ∧ (input.all Incoming.isFrame = true →
      (listenLoop raises s input).state = s ∧
      (listenLoop raises s input).state.connected = true) := by
  refine ⟨?_, ?_, ?_, ?_⟩
  · simp [listenLoop, hc, hw]
  · simp [listenLoop, hc, hw]
  · simp [listenLoop, hc, hw]
  · intro hall
    have := listenLoop_allFrames_state raises s hc hw input hall
    exact ⟨this, by rw [this]; exact hc⟩

/-- C10 (witness): the theorem on the connected fixture client: a malformed
frame followed by a valid typing_start frame is skipped while the loop keeps
running, and a closed signal stops the loop with the flag down. -/
theorem listen_loop_error_exit_behavior_witness :
    listenLoop (fun _ => false) cJ
        (Incoming.frame none ::
          [Incoming.frame
            (some { topic := "channel:zz", event := "typing_start",
                    payload := [] })]) =
      { state := (listenLoop (fun _ => false) cJ
          [Incoming.frame
            (some { topic := "channel:zz", event := "typing_start",
                    payload := [] })]).state,
        invocations := (listenLoop (fun _ => false) cJ
          [Incoming.frame
            (some { topic := "channel:zz", event := "typing_start",
                    payload := [] })]).invocations,
        log := "Error handling message" :: (listenLoop (fun _ => false) cJ
          [Incoming.frame
            (some { topic := "channel:zz", event := "typing_start",
                    payload := [] })]).log }
  ∧ listenLoop (fun _ => false) cJ
        (Incoming.closed ::
          [Incoming.frame
            (some { topic := "channel:zz", event := "typing_start",
                    payload := [] })]) =
      { state := { cJ with connected := false }, invocations := [],
        log := ["WebSocket connection closed"] }
  ∧ listenLoop (fun _ => false) cJ
        (Incoming.wsError ::
          [Incoming.frame
            (some { topic := "channel:zz", event := "typing_start",
                    payload := [] })]) =
      { state := { cJ with connected := false }, invocations := [],
        log := ["WebSocket error"] }
  ∧ ([Incoming.frame none].all Incoming.isFrame = true →
      (listenLoop (fun _ => false) cJ [Incoming.frame none]).state = cJ ∧
      (listenLoop (fun _ => false) cJ
        [Incoming.frame none]).state.connected = true) :=
  listen_loop_error_exit_behavior (fun _ => false) cJ
    [Incoming.frame
      (some { topic := "channel:zz", event := "typing_start",
              payload := [] })]
    [Incoming.frame none] rfl rfl

/-! Helper lemmas for the subscription-map invariant. -/

/-- Membership in a dict is membership of its key list. -/
lemma containsKey_eq_memStr {α : Type} (d : List (String × α)) (k : String) :
    containsKey d k = memStr k (d.map Prod.fst) := by
  induction d with
  | nil => rfl
  | cons p t ih => simp [containsKey_cons, memStr, ih]

/-- Boolean membership agrees with list membership. -/
lemma memStr_iff_mem (k : String) :
    ∀ l : List String, memStr k l = true ↔ k ∈ l := by
  intro l
  induction l with
  | nil => simp [memStr]
  | cons c t ih =>
      simp [memStr, ih, List.mem_cons]
      constructor
      · rintro (h | h)
        · exact Or.inl h.symm
        · exact Or.inr h
      · rintro (h | h)
        · exact Or.inl h.symm
        · exact Or.inr h

/-- Replacing the value at a present key keeps the key list; a new key is
appended at the end (Python dicts preserve insertion order). -/
lemma map_fst_dictSet {α : Type} (d : List (String × α)) (k : String) (v : α) :
    (dictSet d k v).map Prod.fst =
      if containsKey d k then d.map Prod.fst else d.map Prod.fst ++ [k] := by
  by_cases h : containsKey d k
  · rw [if_pos h]
    simp only [dictSet, if_pos h, List.map_map]
    apply List.map_congr_left
    intro p _
    by_cases hp : (p.1 == k) = true
    · have : p.1 = k := by simpa using hp
      simp [hp, this]
    · simp at hp
      simp [hp]
  · rw [if_neg h]
    simp [dictSet, h]

/-- Deleting a key filters it out of the key list. -/
lemma map_fst_dictDel {α : Type} (d : List (String × α)) (k : String) :
    (dictDel d k).map Prod.fst =
      (d.map Prod.fst).filter (fun c => c != k) := by
  induction d with
  | nil => rfl
  | cons p t ih =>
      show ((p :: t).filter (fun q => q.1 != k)).map Prod.fst =
        (p.1 :: t.map Prod.fst).filter (fun c => c != k)
      rw [List.filter_cons, List.filter_cons]
      cases hp : (p.1 != k) with
      | true =>
          rw [if_pos rfl, if_pos rfl, List.map_cons]
          exact congrArg (List.cons p.1) ih
      | false =>
          rw [if_neg (by simp), if_neg (by simp)]
          exact ih

/-- An absent key is untouched by the delete filter. -/
lemma filter_ne_of_not_mem (k : String) :
    ∀ l : List String, memStr k l = false →
      l.filter (fun c => c != k) = l := by
  intro l
  induction l with
  | nil => intro _; rfl
  | cons c t ih =>
      intro h
      rw [memStr] at h
      have hc : (c == k) = false := by
        cases hck : (c == k) with
        | true => rw [hck] at h; simp at h
        | false => rfl
      have ht : memStr k t = false := by
        rw [hc] at h
        simpa using h
      rw [List.filter_cons, if_pos (by simp [bne, hc]), ih ht]

/-- A successful lookup implies membership. -/
lemma containsKey_of_dictGet {α : Type} (k : String) (v : α) :
    ∀ d : List (String × α), dictGet d k = some v →
      containsKey d k = true := by
  intro d
  induction d with
  | nil => intro h; simp [dictGet] at h
  | cons p t ih =>
      intro h
      cases hp : (p.1 == k) with
      | true => simp [containsKey_cons, hp]
      | false =>
          rw [dictGet_cons_neg hp] at h
          simp [containsKey_cons, hp, ih h]

/-- A failed lookup implies absence. -/
lemma not_containsKey_of_dictGet_none {α : Type} (k : String) :
    ∀ d : List (String × α), dictGet d k = none →
      containsKey d k = false := by
  intro d
  induction d with
  | nil => intro _; rfl
  | cons p t ih =>
      intro h
      cases hp : (p.1 == k) with
      | true => rw [dictGet_cons_pos p t k hp] at h; cases h
      | false =>
          rw [dictGet_cons_neg hp] at h
          simp [containsKey_cons, hp, ih h]

/-- Running a join/leave sequence on a connected client keeps the client
connected and drives the subscription-map key list exactly as the reference
fold `currentlyJoined` prescribes. -/
lemma runOps_keys :
    ∀ (ops : List ChanOp) (s : WSClient), s.websocket = true →
      s.connected = true →
      (runOps s ops).websocket = true ∧ (runOps s ops).connected = true ∧
      (runOps s ops).channels.map Prod.fst =
        currentlyJoined ops (s.channels.map Prod.fst) := by
  intro ops
  induction ops with
  | nil =>
      intro s hw hc
      exact ⟨hw, hc, rfl⟩
  | cons op rest ih =>
      intro s hw hc
      cases op with
      | join cid =>
          have hjoin : (joinChannel s 0 true cid []).state =
              { s with channels := dictSet s.channels cid (ChannelInfo.mk ("channel:" ++ cid) []) } := by
            simp [joinChannel, hw, hc]
          rw [show runOps s (ChanOp.join cid :: rest) =
              runOps (joinChannel s 0 true cid []).state rest from rfl, hjoin]
          obtain ⟨h1, h2, h3⟩ :=
            ih { s with channels := dictSet s.channels cid (ChannelInfo.mk ("channel:" ++ cid) []) } hw hc
          refine ⟨h1, h2, ?_⟩
          rw [h3]
          show currentlyJoined rest
              ((dictSet s.channels cid
                (ChannelInfo.mk ("channel:" ++ cid) [])).map Prod.fst) =
            currentlyJoined (ChanOp.join cid :: rest)
              (s.channels.map Prod.fst)
          rw [map_fst_dictSet, containsKey_eq_memStr, currentlyJoined]
      | leave cid =>
          rw [show runOps s (ChanOp.leave cid :: rest) =
              runOps (leaveChannel s 0 true cid).state rest from rfl]
          show _ ∧ _ ∧ _ = currentlyJoined rest
            ((s.channels.map Prod.fst).filter (fun c => c != cid))
          cases hget : dictGet s.channels cid with
          | none =>
              have hstate : (leaveChannel s 0 true cid).state = s := by
                simp [leaveChannel, hget]
              rw [hstate]
              obtain ⟨h1, h2, h3⟩ := ih s hw hc
              refine ⟨h1, h2, ?_⟩
              rw [h3]
              have habs : memStr cid (s.channels.map Prod.fst) = false := by
                rw [← containsKey_eq_memStr]
                exact not_containsKey_of_dictGet_none cid s.channels hget
              rw [filter_ne_of_not_mem cid (s.channels.map Prod.fst) habs]
          | some info =>
              have hstate : (leaveChannel s 0 true cid).state =
                  { s with channels := dictDel s.channels cid } := by
                simp [leaveChannel, hget, hw, hc]
              rw [hstate]
              obtain ⟨h1, h2, h3⟩ :=
                ih { s with channels := dictDel s.channels cid } hw hc
              refine ⟨h1, h2, ?_⟩
              rw [h3]
              show currentlyJoined rest
                ((dictDel s.channels cid).map Prod.fst) = _
              rw [map_fst_dictDel]

/-- The reference fold keeps the id list duplicate-free. -/
lemma currentlyJoined_nodup :
    ∀ (ops : List ChanOp) (acc : List String), acc.Nodup →
      (currentlyJoined ops acc).Nodup := by
  intro ops
  induction ops with
  | nil => intro acc h; exact h
  | cons op rest ih =>
      intro acc h
      cases op with
      | join cid =>
          rw [currentlyJoined]
          cases hm : memStr cid acc with
          | true => rw [if_pos rfl]; exact ih acc h
          | false =>
              rw [if_neg (by simp)]
              refine ih _ ?_
              have hnot : cid ∉ acc := by
                intro hmem
                rw [(memStr_iff_mem cid acc).mpr hmem] at hm
                cases hm
              simp [List.nodup_append, h, hnot]
      | leave cid =>
          rw [currentlyJoined]
          exact ih _ (h.filter _)

/-- A channel-scoped send that returns without error found its channel id in
the subscription map. -/
lemma sendChannelEvent_ok_joined (s : WSClient) (now : Nat) (ok : Bool)
    (cid ev : String) (p : Payload)
    (h : (sendChannelEvent s now ok cid ev p).err = none) :
    containsKey s.channels cid = true := by
  by_cases hguard : (!s.websocket || !s.connected) = true
  · rw [sendChannelEvent_notConnected s now ok cid ev p hguard] at h
    cases h
  · cases hget : dictGet s.channels cid with
    | none =>
        have hguard2 : (!s.websocket || !s.connected) = false := by
          cases hgb : (!s.websocket || !s.connected) with
          | true => exact absurd hgb hguard
          | false => rfl
        simp [sendChannelEvent, hguard2, hget] at h
    | some info => exact containsKey_of_dictGet cid info s.channels hget

/-- C6: for every sequence of join/leave calls on a connected client that
starts with no subscriptions, the subscription-map key list is exactly the
duplicate-free list of distinct ids joined and not subsequently left (so
rejoining an already joined topic does not grow the map and the map size is
the count of currently joined distinct topics), and a channel-scoped send
that succeeds targets an id in that list. -/
theorem join_leave_subscription_invariant (ops : List ChanOp) (s : WSClient)
    (now : Nat) (ok : Bool) (cid ev : String) (p : Payload)
    (hw : s.websocket = true) (hc : s.connected = true)
    (h0 : s.channels = []) :
    (runOps s ops).channels.map Prod.fst = currentlyJoined ops []
  ∧ (runOps s ops).channels.length = (currentlyJoined ops []).length
  ∧ (currentlyJoined ops []).Nodup
  ∧ ((sendChannelEvent (runOps s ops) now ok cid ev p).err = none →
      memStr cid (currentlyJoined ops []) = true) := by
  obtain ⟨hw2, hc2, hkeys⟩ := runOps_keys ops s hw hc
  rw [h0] at hkeys
  simp only [List.map_nil] at hkeys
  refine ⟨hkeys, ?_, currentlyJoined_nodup ops [] List.nodup_nil, ?_⟩
  · rw [← hkeys]
    exact (List.length_map _ _).symm
  · intro hsend
    have hmem := sendChannelEvent_ok_joined _ now ok cid ev p hsend
    rw [containsKey_eq_memStr, hkeys] at hmem
    exact hmem

/-- C6 (witness): the theorem on a concrete trace: joining a, joining b,
rejoining a and leaving b ends with the single subscription a, and a
successful send implies membership. -/
theorem join_leave_subscription_invariant_witness :
    (runOps cEmpty
        [ChanOp.join "a", ChanOp.join "b", ChanOp.join "a",
         ChanOp.leave "b"]).channels.map Prod.fst =
      currentlyJoined
        [ChanOp.join "a", ChanOp.join "b", ChanOp.join "a",
         ChanOp.leave "b"] []
  ∧ (runOps cEmpty
        [ChanOp.join "a", ChanOp.join "b", ChanOp.join "a",
         ChanOp.leave "b"]).channels.length =
      (currentlyJoined
        [ChanOp.join "a", ChanOp.join "b", ChanOp.join "a",
         ChanOp.leave "b"] []).length
  ∧ (currentlyJoined
        [ChanOp.join "a", ChanOp.join "b", ChanOp.join "a",
         ChanOp.leave "b"] []).Nodup
  ∧ ((sendChannelEvent (runOps cEmpty
        [ChanOp.join "a", ChanOp.join "b", ChanOp.join "a",
         ChanOp.leave "b"]) 9 true "a" "typing_start" []).err = none →
      memStr "a" (currentlyJoined
        [ChanOp.join "a", ChanOp.join "b", ChanOp.join "a",
         ChanOp.leave "b"] []) = true) :=
  join_leave_subscription_invariant
    [ChanOp.join "a", ChanOp.join "b", ChanOp.join "a", ChanOp.leave "b"]
    cEmpty 9 true "a" "typing_start" [] rfl rfl rfl

end SlackCloneSDK
